import Mathlib

/-
Shallow embedding of the CTA transit tracker (CTAmqtt.py): the ETA
calculators of the two API clients, the topic derivation of a stop, the
publish / disconnect behaviour of the broker manager, the update pass of
the tracker and the exit-code behaviour of the entry point.

Time is modelled as an integer number of whole seconds (a point on a
global timeline).  A fetched prediction document is modelled by what
calculate_etas observes of it: `none` embeds a fetch that produced `None`
(network failure, non-2xx status or unparsable body) or a document whose
record collection attribute (`prd` for bus, `eta` for rail) is absent;
`some records` embeds a document carrying a list of prediction records,
each record being `some t` (its timestamp field parsed to the arrival
instant `t`) or `none` (strptime raises on it and the record is skipped).
-/

/-- Seconds attribute of a Python timedelta whose total duration is `total`
whole seconds.  Python normalises a timedelta so that its seconds field
always lies in `[0, 86400)`: the field equals the total duration modulo one
day, with floor semantics, which for the positive modulus 86400 coincides
with the Euclidean `%` of Lean `Int`.  It is NOT the (possibly negative)
total duration in seconds. -/
def timedeltaSeconds (total : Int) : Int := total % 86400

/-- A fetched prediction batch as observed by calculate_etas (see header). -/
abbrev PredictionBatch := Option (List (Option Int))

/-- Embeds CTABusClient.calculate_etas: for a `None` or collection-less
document return `[-1]`; otherwise for each record that parses, append
`max(0, (arrival - now).seconds)`; unparsable records are skipped; if the
resulting list is empty return `[-1]`. -/
def CTABusClient.calculate_etas (predictions : PredictionBatch) (current_time : Int) :
    List Int :=
  match predictions with
  | none => [-1]
  | some prds =>
    let eta_list := prds.filterMap (fun prediction =>
      prediction.map (fun predicted_arrival =>
        max 0 (timedeltaSeconds (predicted_arrival - current_time))))
    if eta_list = [] then [-1] else eta_list

/-- Embeds CTARailClient.calculate_etas: identical logic to the bus client,
reading the rail document records (second-resolution timestamps). -/
def CTARailClient.calculate_etas (predictions : PredictionBatch) (current_time : Int) :
    List Int :=
  match predictions with
  | none => [-1]
  | some prds =>
    let eta_list := prds.filterMap (fun prediction =>
      prediction.map (fun predicted_arrival =>
        max 0 (timedeltaSeconds (predicted_arrival - current_time))))
    if eta_list = [] then [-1] else eta_list

/-- Python truthiness of an optional string (`None` and `""` are falsy). -/
def pyTruthy : Option String → Bool
  | none => false
  | some s => s != ""

/-- Embeds the TransitStop dataclass. -/
structure TransitStop where
  stop_id : String
  route : Option String := none
  topic : Option String := none
deriving DecidableEq, Repr

/-- Embeds TransitStop.get_topic: an explicitly set (truthy) topic wins;
otherwise `stop_id/route` when a truthy route is set, else `stop_id`. -/
def TransitStop.get_topic (s : TransitStop) : String :=
  if pyTruthy s.topic then s.topic.getD ""
  else if pyTruthy s.route then s.stop_id ++ "/" ++ s.route.getD ""
  else s.stop_id

/-- Python `min` over a nonempty list of ints: fold of the binary minimum
over the tail, starting from the head. -/
def pymin (x : Int) : List Int → Int
  | [] => x
  | y :: ys => pymin (min x y) ys

/-- Embeds CTATransitTracker._update_downtown_express, parametrised by the
fetch results for the three downtown routes (in route order) and the
reference time.  For each route the body computes `etas` via the bus
client and appends `etas[0]` when `etas` is nonempty and `etas[0] != -1`;
if the collected list is nonempty the minimum is published to the
aggregate topic (`some value` = that publish happens), otherwise no
publish happens (`none`). -/
def CTATransitTracker.update_downtown_express (fetches : List PredictionBatch)
    (now : Int) : Option Int :=
  let downtown_etas := fetches.foldl (fun acc predictions =>
    let etas := CTABusClient.calculate_etas predictions now
    match etas with
    | [] => acc
    | e :: _ => if e != -1 then acc ++ [e] else acc) []
  match downtown_etas with
  | [] => none
  | e :: es => some (pymin e es)

/-- Embeds one iteration of the bus loop of
CTATransitTracker.update_predictions for one stop: compute `etas` from the
fetch result; when `etas` is nonempty, one publish call is made to
`CTApredictions/BUS/<get_topic>` with `etas[0]`.  The returned list holds
the (topic, value) publish calls made for this stop. -/
def CTATransitTracker.update_bus_stop (stop : TransitStop)
    (predictions : PredictionBatch) (now : Int) : List (String × Int) :=
  match CTABusClient.calculate_etas predictions now with
  | [] => []
  | e :: _ => [("CTApredictions/BUS/" ++ stop.get_topic, e)]

/-- Embeds one iteration of the rail loop of
CTATransitTracker.update_predictions for one stop, publishing to
`CTApredictions/RAIL/<get_topic>`. -/
def CTATransitTracker.update_rail_stop (stop : TransitStop)
    (predictions : PredictionBatch) (now : Int) : List (String × Int) :=
  match CTARailClient.calculate_etas predictions now with
  | [] => []
  | e :: _ => [("CTApredictions/RAIL/" ++ stop.get_topic, e)]

/-- Publish calls made by the bus section of update_predictions: the stops
are processed in registry order, each paired with its own fetch result,
and a per-stop failure is caught and logged, never aborting the loop. -/
def CTATransitTracker.bus_pass (stops : List (TransitStop × PredictionBatch))
    (now : Int) : List (String × Int) :=
  stops.flatMap (fun p => CTATransitTracker.update_bus_stop p.1 p.2 now)

/-- Publish calls made by the rail section of update_predictions. -/
def CTATransitTracker.rail_pass (stops : List (TransitStop × PredictionBatch))
    (now : Int) : List (String × Int) :=
  stops.flatMap (fun p => CTATransitTracker.update_rail_stop p.1 p.2 now)

/-- Publish calls made by the downtown-express section: one call to the
fixed aggregate topic when the aggregate step produces a value. -/
def CTATransitTracker.downtown_offers (fetches : List PredictionBatch)
    (now : Int) : List (String × Int) :=
  match CTATransitTracker.update_downtown_express fetches now with
  | none => []
  | some v => [("CTApredictions/BUS/dwtnEXP", v)]

/-- Embeds CTATransitTracker.update_predictions as the ordered sequence of
publish calls of one full pass: bus stops in registry order, then the
downtown-express aggregate, then rail stops in registry order. -/
def CTATransitTracker.update_predictions
    (busStops : List (TransitStop × PredictionBatch))
    (dwtnFetches : List PredictionBatch)
    (railStops : List (TransitStop × PredictionBatch)) (now : Int) :
    List (String × Int) :=
  CTATransitTracker.bus_pass busStops now ++
    CTATransitTracker.downtown_offers dwtnFetches now ++
    CTATransitTracker.rail_pass railStops now

/-- Embeds MQTTManager.publish.  `connected` is the current value of the
connected flag; `clientResult` is the behaviour of the underlying
`client.publish` call (`.ok rc` = it returned result code `rc`, `.error`
= it raised, in which case the exception is caught).  The first component
is the boolean return value; the second lists the (topic, payload) calls
handed to the underlying client — empty when not connected, so nothing is
sent, queued or buffered. -/
def MQTTManager.publish (connected : Bool) (clientResult : Except String Int)
    (topic : String) (message : String) : Bool × List (String × String) :=
  if connected = false then (false, [])
  else
    match clientResult with
    | .error _ => (false, [(topic, message)])
    | .ok rc => (if rc = 0 then true else false, [(topic, message)])

/-- Outcome of MQTTManager._on_disconnect. -/
structure DisconnectResult where
  connected : Bool
  reconnect_attempts : Nat
  raised : Bool
deriving DecidableEq, Repr

/-- Embeds MQTTManager._reconnect: one `client.connect` call is made
(`connectOutcome` is its behaviour); an exception from it is caught and
logged, so the call never raises.  Returns (attempts made, raised). -/
def MQTTManager.reconnect (connectOutcome : Except String Unit) : Nat × Bool :=
  match connectOutcome with
  | .ok _ => (1, false)
  | .error _ => (1, false)

/-- Embeds MQTTManager._on_disconnect: the connected flag is set to false;
when the result code `rc` is nonzero, _reconnect is invoked inline once
before returning. -/
def MQTTManager.on_disconnect (rc : Int) (connectOutcome : Except String Unit) :
    DisconnectResult :=
  if rc != 0 then
    let r := MQTTManager.reconnect connectOutcome
    ⟨false, r.1, r.2⟩
  else ⟨false, 0, false⟩

/-- Configuration values read from the environment (`none` = variable not
set; `some ""` is falsy in Python, like `None`). -/
structure Config where
  cta_api_key_bus : Option String
  cta_api_key_rail : Option String
  mqtt_password : Option String
deriving DecidableEq, Repr

/-- Embeds CTATransitTracker._validate_config: raises ValueError
(`.error`) when either API key is missing/falsy; a missing MQTT password
only logs a warning. -/
def CTATransitTracker.validate_config (c : Config) : Except String Unit :=
  if pyTruthy c.cta_api_key_bus = false then
    Except.error "CTA_API_KEY_BUS environment variable is required"
  else if pyTruthy c.cta_api_key_rail = false then
    Except.error "CTA_API_KEY_RAIL environment variable is required"
  else Except.ok ()

/-- How a run of the main loop ends. -/
inductive RunEnd where
  | connectFailed
  | interrupted
deriving DecidableEq, Repr

/-- Embeds CTATransitTracker.run: when the broker connect fails, run logs
the failure and returns normally (plain `return`, no exception); otherwise
the loop runs until KeyboardInterrupt is caught, breaks, disconnects and
returns normally.  Both endings are normal returns. -/
def CTATransitTracker.run (connectOk : Bool) : RunEnd :=
  if connectOk = false then RunEnd.connectFailed else RunEnd.interrupted

/-- Embeds main: constructing the tracker runs _validate_config, whose
ValueError is caught, logged and re-raised out of main (`.error`);
otherwise tracker.run is called and main returns normally with its
ending. -/
def CTAmain (c : Config) (connectOk : Bool) : Except String RunEnd :=
  match CTATransitTracker.validate_config c with
  | .error e => Except.error e
  | .ok _ => Except.ok (CTATransitTracker.run connectOk)

/-- Exit code of the Python process given the outcome of main: an uncaught
exception terminates the interpreter with exit code 1, a normal return
exits with 0. -/
def processExitCode : Except String RunEnd → Nat
  | .ok _ => 0
  | .error _ => 1

/-- Helper: the bus ETA calculator never returns the empty list. -/
theorem bus_etas_ne_nil (p : PredictionBatch) (now : Int) :
    CTABusClient.calculate_etas p now ≠ [] := by
  cases p with
  | none => simp [CTABusClient.calculate_etas]
  | some prds =>
    simp only [CTABusClient.calculate_etas]
    split
    · simp
    · assumption

/-- Helper: the rail ETA calculator never returns the empty list. -/
theorem rail_etas_ne_nil (p : PredictionBatch) (now : Int) :
    CTARailClient.calculate_etas p now ≠ [] := by
  cases p with
  | none => simp [CTARailClient.calculate_etas]
  | some prds =>
    simp only [CTARailClient.calculate_etas]
    split
    · simp
    · assumption

/-- Helper: a single computed ETA entry lies in [0, 86399]. -/
theorem eta_entry_range (t now : Int) :
    0 ≤ max 0 (timedeltaSeconds (t - now)) ∧
      max 0 (timedeltaSeconds (t - now)) ≤ 86399 := by
  have h1 : (0 : Int) ≤ (t - now) % 86400 := Int.emod_nonneg _ (by norm_num)
  have h2 : (t - now) % 86400 < 86400 := Int.emod_lt_of_pos _ (by norm_num)
  unfold timedeltaSeconds
  rw [max_eq_right h1]
  omega

/-- C10: every element of the list returned by calculate_etas (bus and
rail variants) lies in the range [-1, 86399]; because the computation
reads the timedelta seconds field (the total duration modulo one day)
rather than the total duration, no returned ETA is ever 86400 or greater,
even for an arrival more than one day in the future. -/
theorem mem_etas_range (p : PredictionBatch) (now : Int) (x : Int)
    (hx : x ∈ CTABusClient.calculate_etas p now ∨
      x ∈ CTARailClient.calculate_etas p now) :
    -1 ≤ x ∧ x ≤ 86399 := by
  have key : ∀ (prds : List (Option Int)),
      x ∈ (if (prds.filterMap (fun prediction =>
          prediction.map (fun predicted_arrival =>
            max 0 (timedeltaSeconds (predicted_arrival - now)))) : List Int) = []
        then [(-1 : Int)]
        else prds.filterMap (fun prediction =>
          prediction.map (fun predicted_arrival =>
            max 0 (timedeltaSeconds (predicted_arrival - now))))) →
      -1 ≤ x ∧ x ≤ 86399 := by
    intro prds hmem
    split at hmem
    · simp at hmem
      omega
    · rw [List.mem_filterMap] at hmem
      obtain ⟨a, _, ha⟩ := hmem
      cases a with
      | none => simp at ha
      | some t =>
        have hb := eta_entry_range t now
        have hval : max 0 (timedeltaSeconds (t - now)) = x := by
          simpa using ha
        omega
  rcases hx with hx | hx
  · cases p with
    | none =>
      simp [CTABusClient.calculate_etas] at hx
      omega
    | some prds =>
      simp only [CTABusClient.calculate_etas] at hx
      exact key prds hx
  · cases p with
    | none =>
      simp [CTARailClient.calculate_etas] at hx
      omega
    | some prds =>
      simp only [CTARailClient.calculate_etas] at hx
      exact key prds hx

/-- Witness for C10: the ETA 60, produced by a bus arrival one day and one
minute after the reference time 0, is a member of the output and lies in
the range. -/
theorem mem_etas_range_witness :
    ((60 : Int) ∈ CTABusClient.calculate_etas (some [some 86460]) 0 ∨
      (60 : Int) ∈ CTARailClient.calculate_etas (some [some 86460]) 0) ∧
    (-1 ≤ (60 : Int) ∧ (60 : Int) ≤ 86399) :=
  ⟨Or.inl (by decide),
    mem_etas_range (some [some 86460]) 0 60 (Or.inl (by decide))⟩

/-- C1: evaluation of both calculate_etas variants at an arrival strictly
before the reference time.  The spec demands a clamped ETA of exactly 0,
but the code reads the timedelta seconds field, which for a negative delta
is the (large, positive) duration modulo one day: an arrival 60 seconds in
the past yields 86340 (bus) and one second in the past yields 86399
(rail), never 0.  The `max(0, ...)` clamp in the source is dead code since
the seconds field is always non-negative, showing the clamping intent the
spec records; the code is the slip. -/
theorem past_arrival_eta_not_clamped :
    CTABusClient.calculate_etas (some [some 60]) 120 = [86340] ∧
    CTARailClient.calculate_etas (some [some 119]) 120 = [86399] ∧
    CTABusClient.calculate_etas (some [some 60]) 120 ≠ [0] := by decide

/-- C2: calculate_etas (bus and rail variants) never returns an empty
list, and for every batch that is absent (fetch returned None or the
record collection attribute is missing) or whose records are all
unparsable and skipped, it returns exactly [-1]. -/
theorem etas_sentinel_on_no_valid_records (p : PredictionBatch) (now : Int) :
    (CTABusClient.calculate_etas p now ≠ [] ∧
      CTARailClient.calculate_etas p now ≠ []) ∧
    ((p = none ∨ ∃ l, p = some l ∧ ∀ r ∈ l, r = none) →
      CTABusClient.calculate_etas p now = [-1] ∧
      CTARailClient.calculate_etas p now = [-1]) := by
  refine ⟨⟨bus_etas_ne_nil p now, rail_etas_ne_nil p now⟩, ?_⟩
  rintro (rfl | ⟨l, rfl, hl⟩)
  · exact ⟨rfl, rfl⟩
  · have hnil : l.filterMap (fun prediction =>
        prediction.map (fun predicted_arrival =>
          max 0 (timedeltaSeconds (predicted_arrival - now)))) = [] := by
      rw [List.filterMap_eq_nil_iff]
      intro a ha
      rw [hl a ha]
      rfl
    constructor
    · simp only [CTABusClient.calculate_etas, hnil]
      rfl
    · simp only [CTARailClient.calculate_etas, hnil]
      rfl

/-- Witness for C2: a batch of two unparsable records yields [-1] from
both variants. -/
theorem etas_sentinel_witness :
    CTABusClient.calculate_etas (some [none, none]) 0 = [-1] ∧
    CTARailClient.calculate_etas (some [none, none]) 0 = [-1] :=
  (etas_sentinel_on_no_valid_records (some [none, none]) 0).2
    (Or.inr ⟨[none, none], rfl, by decide⟩)

/-- Helper: Python `min` over a nonempty list equals the foldl of the
binary minimum. -/
theorem pymin_eq_foldl (x : Int) (xs : List Int) : pymin x xs = xs.foldl min x := by
  induction xs generalizing x with
  | nil => rfl
  | cons y ys ih => simp only [pymin, List.foldl_cons, ih]

/-- Helper: the accumulation loop of the downtown-express step collects,
in order, the first ETA of each member whose first ETA is not -1. -/
theorem dwtn_foldl_collect (now : Int) (l : List PredictionBatch) (acc : List Int) :
    l.foldl (fun acc predictions =>
      let etas := CTABusClient.calculate_etas predictions now
      match etas with
      | [] => acc
      | e :: _ => if e != -1 then acc ++ [e] else acc) acc =
    acc ++ (l.map (fun p => (CTABusClient.calculate_etas p now).headD (-1))).filter
      (fun e => e != -1) := by
  induction l generalizing acc with
  | nil => simp
  | cons p ps ih =>
    obtain ⟨e, es, he⟩ := List.exists_cons_of_ne_nil (bus_etas_ne_nil p now)
    simp only [List.foldl_cons, List.map_cons, List.filter_cons, he, List.headD_cons]
    by_cases hne : (e != -1) = true
    · rw [if_pos hne, if_pos hne, ih]
      simp [List.append_assoc]
    · rw [if_neg hne, if_neg hne, ih]

/-- C3: the downtown-express aggregate step publishes exactly the minimum
of the first ETAs of the members after excluding every -1 entry, with no
publish at all when the first ETA of every member is -1; in particular member
first ETAs [-1, 240, 600] publish 240 and all -1 publish nothing. -/
theorem aggregate_min_reduction (fetches : List PredictionBatch) (now : Int) :
    (CTATransitTracker.update_downtown_express fetches now =
      ((fetches.map (fun p => (CTABusClient.calculate_etas p now).headD (-1))).filter
        (fun e => e != -1)).min?) ∧
    CTATransitTracker.update_downtown_express
      [none, some [some 240], some [some 600]] 0 = some 240 ∧
    CTATransitTracker.update_downtown_express [none, none, none] 0 = none := by
  refine ⟨?_, by decide, by decide⟩
  unfold CTATransitTracker.update_downtown_express
  rw [dwtn_foldl_collect now fetches []]
  rw [List.nil_append]
  cases h : (fetches.map (fun p => (CTABusClient.calculate_etas p now).headD (-1))).filter
      (fun e => e != -1) with
  | nil => rfl
  | cons e es =>
    show some (pymin e es) = (e :: es).min?
    rw [pymin_eq_foldl]
    rfl

/-- Counterexample to C4: for the stop 1151/route 77 whose fetch failed
(fetch result None), the pass does make a publish call to the topic of
that stop — with the sentinel -1 — rather than skipping the publish. -/
theorem fetch_failure_publish_counterexample :
    CTATransitTracker.update_bus_stop ⟨"1151", some "77", none⟩ none 0 =
      [("CTApredictions/BUS/1151/77", -1)] ∧
    CTATransitTracker.update_bus_stop ⟨"1151", some "77", none⟩ none 0 ≠ [] := by
  constructor
  · rfl
  · decide

/-- C4 amended: when the fetch for a stop fails (FetchError yielding None), the
cycle does not raise and does not skip the stop: it makes exactly one
publish call to the topic of the stop carrying the sentinel value -1 (the
failed fetch yields ETA list [-1] whose first element is published). -/
theorem fetch_failure_sentinel_publish (stop : TransitStop) (now : Int) :
    CTATransitTracker.update_bus_stop stop none now =
      [("CTApredictions/BUS/" ++ stop.get_topic, -1)] ∧
    CTATransitTracker.update_rail_stop stop none now =
      [("CTApredictions/RAIL/" ++ stop.get_topic, -1)] :=
  ⟨rfl, rfl⟩

/-- C5: publish called while the connected flag is unset returns the
failure result False immediately — the underlying client publish is never
invoked, so nothing is sent, raised, queued or buffered, whatever the
behaviour of the underlying client would have been. -/
theorem publish_disconnected (clientResult : Except String Int)
    (topic message : String) :
    MQTTManager.publish false clientResult topic message = (false, []) := rfl

/-- Counterexample to C6: with a fully valid configuration but a broker
connect failure at launch, run logs and returns normally, main raises
nothing, and the process exit code is 0 — not the non-zero code the claim
demands for an unrecoverable broker connect failure. -/
theorem connect_failure_exit_zero :
    processExitCode (CTAmain ⟨some "busKey", some "railKey", some "pw"⟩ false) = 0 ∧
    CTAmain ⟨some "busKey", some "railKey", some "pw"⟩ false =
      Except.ok RunEnd.connectFailed := ⟨rfl, rfl⟩

/-- C6 amended: the exit code is 0 both on a clean interrupt shutdown and
on an unrecoverable broker connect failure at launch (run returns
normally in both cases), and non-zero (1) exactly on a fatal startup
configuration failure (missing API key), whose ValueError propagates out
of main. -/
theorem exit_code_behaviour (c : Config) (connectOk : Bool) :
    (processExitCode (CTAmain c connectOk) =
      match CTATransitTracker.validate_config c with
      | .ok _ => 0
      | .error _ => 1) ∧
    processExitCode (CTAmain ⟨some "busKey", some "railKey", some "pw"⟩ true) = 0 ∧
    processExitCode (CTAmain ⟨some "busKey", some "railKey", some "pw"⟩ false) = 0 ∧
    processExitCode (CTAmain ⟨none, some "railKey", some "pw"⟩ connectOk) = 1 ∧
    processExitCode (CTAmain ⟨some "busKey", some "", some "pw"⟩ connectOk) = 1 := by
  refine ⟨?_, by decide, by decide, ?_, ?_⟩
  · unfold CTAmain processExitCode
    cases CTATransitTracker.validate_config c <;> rfl
  · cases connectOk <;> decide
  · cases connectOk <;> decide

/-- C7: the published topic of a stop is
`CTApredictions/{MODE}/{stop_id}/{route}` when a (nonempty) route is
present and `CTApredictions/{MODE}/{stop_id}` when it is absent, no
explicit topic override being set (none is in the registry); in
particular bus stop 1151 route 77 publishes to CTApredictions/BUS/1151/77
and rail stop 30231 to CTApredictions/RAIL/30231. -/
theorem topic_derivation (id r : String) (p : PredictionBatch) (now : Int)
    (hr : r ≠ "") :
    (CTATransitTracker.update_bus_stop ⟨id, some r, none⟩ p now).map Prod.fst =
      ["CTApredictions/BUS/" ++ (id ++ "/" ++ r)] ∧
    (CTATransitTracker.update_bus_stop ⟨id, none, none⟩ p now).map Prod.fst =
      ["CTApredictions/BUS/" ++ id] ∧
    (CTATransitTracker.update_rail_stop ⟨id, none, none⟩ p now).map Prod.fst =
      ["CTApredictions/RAIL/" ++ id] ∧
    (CTATransitTracker.update_bus_stop ⟨"1151", some "77", none⟩ p now).map Prod.fst =
      ["CTApredictions/BUS/1151/77"] ∧
    (CTATransitTracker.update_rail_stop ⟨"30231", none, none⟩ p now).map Prod.fst =
      ["CTApredictions/RAIL/30231"] := by
  obtain ⟨e, es, he⟩ := List.exists_cons_of_ne_nil (bus_etas_ne_nil p now)
  obtain ⟨f, fs, hf⟩ := List.exists_cons_of_ne_nil (rail_etas_ne_nil p now)
  refine ⟨?_, ?_, ?_, ?_, ?_⟩ <;>
    simp [CTATransitTracker.update_bus_stop, CTATransitTracker.update_rail_stop,
      he, hf, TransitStop.get_topic, pyTruthy, hr]

/-- Witness for C7: instantiation at bus stop 1151 route 77 with a failed
fetch at reference time 0. -/
theorem topic_derivation_witness :
    ("77" : String) ≠ "" ∧
    (CTATransitTracker.update_bus_stop ⟨"1151", some "77", none⟩ none 0).map Prod.fst =
      ["CTApredictions/BUS/1151/77"] ∧
    (CTATransitTracker.update_rail_stop ⟨"30231", none, none⟩ none 0).map Prod.fst =
      ["CTApredictions/RAIL/30231"] := by
  have h := topic_derivation "1151" "77" none 0 (by decide)
  exact ⟨by decide, h.2.2.2.1, h.2.2.2.2⟩

/-- C8: a fetch or processing failure at one stop does not abort the pass.
For any stop `s` anywhere in the bus registry — whatever its fetch result,
including a failure — the pass output is the publish calls of the stops
before it, then its own, then, unchanged, those of every subsequent stop,
the aggregate step and the rail stops; the rail loop decomposes the same
way; and every stop, failed fetch included, is always offered for
publishing: its step always makes exactly one publish call to its own
topic. -/
theorem pass_isolation (pre post : List (TransitStop × PredictionBatch))
    (s : TransitStop × PredictionBatch) (dwtnFetches : List PredictionBatch)
    (railStops : List (TransitStop × PredictionBatch)) (now : Int) :
    (CTATransitTracker.update_predictions (pre ++ s :: post) dwtnFetches railStops now =
      CTATransitTracker.bus_pass pre now ++
        (CTATransitTracker.update_bus_stop s.1 s.2 now ++
          (CTATransitTracker.bus_pass post now ++
            (CTATransitTracker.downtown_offers dwtnFetches now ++
              CTATransitTracker.rail_pass railStops now)))) ∧
    (CTATransitTracker.rail_pass (pre ++ s :: post) now =
      CTATransitTracker.rail_pass pre now ++
        (CTATransitTracker.update_rail_stop s.1 s.2 now ++
          CTATransitTracker.rail_pass post now)) ∧
    (∀ stop fetch, ∃ v, CTATransitTracker.update_bus_stop stop fetch now =
      [("CTApredictions/BUS/" ++ stop.get_topic, v)]) ∧
    (∀ stop fetch, ∃ v, CTATransitTracker.update_rail_stop stop fetch now =
      [("CTApredictions/RAIL/" ++ stop.get_topic, v)]) := by
  refine ⟨?_, ?_, ?_, ?_⟩
  · simp [CTATransitTracker.update_predictions, CTATransitTracker.bus_pass,
      List.flatMap_append, List.flatMap_cons, List.append_assoc]
  · simp [CTATransitTracker.rail_pass, List.flatMap_append, List.flatMap_cons,
      List.append_assoc]
  · intro stop fetch
    obtain ⟨e, es, he⟩ := List.exists_cons_of_ne_nil (bus_etas_ne_nil fetch now)
    exact ⟨e, by simp [CTATransitTracker.update_bus_stop, he]⟩
  · intro stop fetch
    obtain ⟨f, fs, hf⟩ := List.exists_cons_of_ne_nil (rail_etas_ne_nil fetch now)
    exact ⟨f, by simp [CTATransitTracker.update_rail_stop, hf]⟩

/-- C9: on every disconnect callback the connected flag is set to false;
for a nonzero (unclean) result code exactly one inline reconnect attempt
is made before returning, never raising whatever the reconnect outcome;
for a clean (zero) result code no reconnect attempt is made. -/
theorem on_disconnect_behaviour (rc : Int) (outcome : Except String Unit) :
    (MQTTManager.on_disconnect rc outcome).connected = false ∧
    (rc ≠ 0 → MQTTManager.on_disconnect rc outcome =
      ⟨false, 1, false⟩) ∧
    (rc = 0 → MQTTManager.on_disconnect rc outcome = ⟨false, 0, false⟩) := by
  by_cases h : rc = 0
  · subst h
    exact ⟨rfl, fun hne => absurd rfl hne, fun _ => rfl⟩
  · have hb : (rc != 0) = true := bne_iff_ne.mpr h
    refine ⟨?_, fun _ => ?_, fun h0 => absurd h0 h⟩ <;>
      · simp only [MQTTManager.on_disconnect, hb]
        cases outcome <;> rfl

/-- Witness for C9: an unclean disconnect (code 5) with a failing
reconnect attempt flips the flag, makes one attempt and raises nothing. -/
theorem on_disconnect_behaviour_witness :
    (5 : Int) ≠ 0 ∧
    MQTTManager.on_disconnect 5 (Except.error "connection refused") =
      ⟨false, 1, false⟩ :=
  ⟨by decide,
    (on_disconnect_behaviour 5 (Except.error "connection refused")).2.1 (by decide)⟩
